import Mathlib

/-!
Shallow embedding of the `musicbrainz` Go package (src/musicbrainz.go) and
proofs about its operations.

Modelling conventions:
* A JSON response body is modelled at the level of its parse outcome: either
  `Body.malformed` (the bytes are not valid JSON, carrying the parser error
  message) or `Body.wellFormed j` with `j` the parsed JSON value.
* `encoding/json` unmarshalling into the package structs is modelled per
  struct: iterate over the object fields in input order (as the Go decoder
  does), assigning the matching struct field and ignoring unknown keys; a
  missing key leaves the zero value, a JSON `null` leaves the current value
  for scalars and yields the empty slice for slices, and a type mismatch is
  a decode error. Go nil slices and empty slices are both modelled as `[]`,
  and a Go nil pointer result as `none`.
* The HTTP layer is a parameter: a `Transport` maps the request URL to the
  outcome of `http.Get` (an error, or a response with a status code and the
  outcome of `io.ReadAll` on its body). Every operation performs exactly one
  `http.Get` per URL by construction, mirroring the straight-line Go code.
* Errors are `GoErr` values; the environment chooses transport and body-read
  errors, `json.Unmarshal` failures are `GoErr.jsonDecode`, and the single
  domain error of the package is `GoErr.domain`. Operations propagate these
  values unchanged, as the Go code does.
-/

set_option maxRecDepth 100000

namespace MusicBrainz

/-- A parsed JSON value, the result of a successful parse of a response body. -/
inductive Json where
  | null : Json
  | bool : Bool → Json
  | num : Int → Json
  | str : String → Json
  | arr : List Json → Json
  | obj : List (String × Json) → Json

/-- Go `encoding/json` semantics for a `string` struct field: a JSON string
sets the field, `null` keeps the current value, anything else is an error. -/
def getStr : Json → String → Except String String
  | .str s, _ => .ok s
  | .null, cur => .ok cur
  | _, _ => .error "json: cannot unmarshal value into Go struct field of type string"

/-- Go `encoding/json` semantics for an `int` struct field. -/
def getInt : Json → Int → Except String Int
  | .num n, _ => .ok n
  | .null, cur => .ok cur
  | _, _ => .error "json: cannot unmarshal value into Go struct field of type int"

/-- Go `encoding/json` semantics for a `bool` struct field. -/
def getBool : Json → Bool → Except String Bool
  | .bool b, _ => .ok b
  | .null, cur => .ok cur
  | _, _ => .error "json: cannot unmarshal value into Go struct field of type bool"

/-- Elements of a `[]string` slice; a `null` element leaves the zero value. -/
def stringElems : List Json → Except String (List String)
  | [] => .ok []
  | j :: js => do
    let s ← getStr j ""
    let ss ← stringElems js
    .ok (s :: ss)

/-- Go `encoding/json` semantics for a `[]string` struct field. -/
def decodeStrings : Json → Except String (List String)
  | .arr xs => stringElems xs
  | .null => .ok []
  | _ => .error "json: cannot unmarshal value into Go struct field of type []string"

/-- `Tag` struct: a tag associated with an artist (json key `name`). -/
structure Tag where
  Name : String
deriving DecidableEq

def tagFields : List (String × Json) → Tag → Except String Tag
  | [], t => .ok t
  | (k, v) :: rest, t =>
    if k == "name" then do
      let x ← getStr v t.Name
      tagFields rest ⟨x⟩
    else tagFields rest t

def decodeTag : Json → Except String Tag
  | .obj fs => tagFields fs ⟨""⟩
  | .null => .ok ⟨""⟩
  | _ => .error "json: cannot unmarshal value into Tag"

def tagElems : List Json → Except String (List Tag)
  | [] => .ok []
  | j :: js => do
    let t ← decodeTag j
    let ts ← tagElems js
    .ok (t :: ts)

def decodeTags : Json → Except String (List Tag)
  | .arr xs => tagElems xs
  | .null => .ok []
  | _ => .error "json: cannot unmarshal value into []Tag"

/-- `Alias` struct: an artist alias (json keys `name`, `type`). -/
structure Alias where
  Name : String
  Type' : String
deriving DecidableEq

def aliasFields : List (String × Json) → Alias → Except String Alias
  | [], a => .ok a
  | (k, v) :: rest, a =>
    if k == "name" then do
      let x ← getStr v a.Name
      aliasFields rest ⟨x, a.Type'⟩
    else if k == "type" then do
      let x ← getStr v a.Type'
      aliasFields rest ⟨a.Name, x⟩
    else aliasFields rest a

def decodeAlias : Json → Except String Alias
  | .obj fs => aliasFields fs ⟨"", ""⟩
  | .null => .ok ⟨"", ""⟩
  | _ => .error "json: cannot unmarshal value into Alias"

def aliasElems : List Json → Except String (List Alias)
  | [] => .ok []
  | j :: js => do
    let a ← decodeAlias j
    let as ← aliasElems js
    .ok (a :: as)

def decodeAliases : Json → Except String (List Alias)
  | .arr xs => aliasElems xs
  | .null => .ok []
  | _ => .error "json: cannot unmarshal value into []Alias"

/-- `ArtistName` struct: name of an artist in a recording artist-credit. -/
structure ArtistName where
  Name : String
deriving DecidableEq

def artistNameFields : List (String × Json) → ArtistName → Except String ArtistName
  | [], a => .ok a
  | (k, v) :: rest, a =>
    if k == "name" then do
      let x ← getStr v a.Name
      artistNameFields rest ⟨x⟩
    else artistNameFields rest a

def decodeArtistName : Json → Except String ArtistName
  | .obj fs => artistNameFields fs ⟨""⟩
  | .null => .ok ⟨""⟩
  | _ => .error "json: cannot unmarshal value into ArtistName"

def artistNameElems : List Json → Except String (List ArtistName)
  | [] => .ok []
  | j :: js => do
    let a ← decodeArtistName j
    let as ← artistNameElems js
    .ok (a :: as)

def decodeArtistNames : Json → Except String (List ArtistName)
  | .arr xs => artistNameElems xs
  | .null => .ok []
  | _ => .error "json: cannot unmarshal value into []ArtistName"

/-- `ArtistCredit` struct: artist credit of a release (json key `name`). -/
structure ArtistCredit where
  Name : String
deriving DecidableEq

def artistCreditFields : List (String × Json) → ArtistCredit → Except String ArtistCredit
  | [], a => .ok a
  | (k, v) :: rest, a =>
    if k == "name" then do
      let x ← getStr v a.Name
      artistCreditFields rest ⟨x⟩
    else artistCreditFields rest a

def decodeArtistCredit : Json → Except String ArtistCredit
  | .obj fs => artistCreditFields fs ⟨""⟩
  | .null => .ok ⟨""⟩
  | _ => .error "json: cannot unmarshal value into ArtistCredit"

def artistCreditElems : List Json → Except String (List ArtistCredit)
  | [] => .ok []
  | j :: js => do
    let a ← decodeArtistCredit j
    let as ← artistCreditElems js
    .ok (a :: as)

def decodeArtistCredits : Json → Except String (List ArtistCredit)
  | .arr xs => artistCreditElems xs
  | .null => .ok []
  | _ => .error "json: cannot unmarshal value into []ArtistCredit"

/-- `ReleaseGroup` struct (json keys `id`, `type`). -/
structure ReleaseGroup where
  ID : String
  Type' : String
deriving DecidableEq

def releaseGroupFields : List (String × Json) → ReleaseGroup → Except String ReleaseGroup
  | [], g => .ok g
  | (k, v) :: rest, g =>
    if k == "id" then do
      let x ← getStr v g.ID
      releaseGroupFields rest ⟨x, g.Type'⟩
    else if k == "type" then do
      let x ← getStr v g.Type'
      releaseGroupFields rest ⟨g.ID, x⟩
    else releaseGroupFields rest g

def decodeReleaseGroup : Json → Except String ReleaseGroup
  | .obj fs => releaseGroupFields fs ⟨"", ""⟩
  | .null => .ok ⟨"", ""⟩
  | _ => .error "json: cannot unmarshal value into ReleaseGroup"

/-- `TextRepresentation` struct (json keys `language`, `script`). -/
structure TextRepresentation where
  Language : String
  Script : String
deriving DecidableEq

def textRepresentationFields :
    List (String × Json) → TextRepresentation → Except String TextRepresentation
  | [], t => .ok t
  | (k, v) :: rest, t =>
    if k == "language" then do
      let x ← getStr v t.Language
      textRepresentationFields rest ⟨x, t.Script⟩
    else if k == "script" then do
      let x ← getStr v t.Script
      textRepresentationFields rest ⟨t.Language, x⟩
    else textRepresentationFields rest t

def decodeTextRepresentation : Json → Except String TextRepresentation
  | .obj fs => textRepresentationFields fs ⟨"", ""⟩
  | .null => .ok ⟨"", ""⟩
  | _ => .error "json: cannot unmarshal value into TextRepresentation"

/-- `GBImage` struct (json keys `image`, `types`). -/
structure GBImage where
  ImageURL : String
  Types : List String
deriving DecidableEq

def gbImageFields : List (String × Json) → GBImage → Except String GBImage
  | [], g => .ok g
  | (k, v) :: rest, g =>
    if k == "image" then do
      let x ← getStr v g.ImageURL
      gbImageFields rest ⟨x, g.Types⟩
    else if k == "types" then do
      let x ← decodeStrings v
      gbImageFields rest ⟨g.ImageURL, x⟩
    else gbImageFields rest g

def decodeGBImage : Json → Except String GBImage
  | .obj fs => gbImageFields fs ⟨"", []⟩
  | .null => .ok ⟨"", []⟩
  | _ => .error "json: cannot unmarshal value into GBImage"

def gbImageElems : List Json → Except String (List GBImage)
  | [] => .ok []
  | j :: js => do
    let g ← decodeGBImage j
    let gs ← gbImageElems js
    .ok (g :: gs)

def decodeGBImages : Json → Except String (List GBImage)
  | .arr xs => gbImageElems xs
  | .null => .ok []
  | _ => .error "json: cannot unmarshal value into []GBImage"

/-- `CoverArtURL` struct (json keys `artwork`, `front`, `back`, `count`, `images`). -/
structure CoverArtURL where
  Artwork : Bool
  Front : Bool
  Back : Bool
  Count : Int
  Images : List GBImage
deriving DecidableEq

def zeroCoverArtURL : CoverArtURL := ⟨false, false, false, 0, []⟩

def coverArtURLFields : List (String × Json) → CoverArtURL → Except String CoverArtURL
  | [], c => .ok c
  | (k, v) :: rest, c =>
    if k == "artwork" then do
      let x ← getBool v c.Artwork
      coverArtURLFields rest ⟨x, c.Front, c.Back, c.Count, c.Images⟩
    else if k == "front" then do
      let x ← getBool v c.Front
      coverArtURLFields rest ⟨c.Artwork, x, c.Back, c.Count, c.Images⟩
    else if k == "back" then do
      let x ← getBool v c.Back
      coverArtURLFields rest ⟨c.Artwork, c.Front, x, c.Count, c.Images⟩
    else if k == "count" then do
      let x ← getInt v c.Count
      coverArtURLFields rest ⟨c.Artwork, c.Front, c.Back, x, c.Images⟩
    else if k == "images" then do
      let x ← decodeGBImages v
      coverArtURLFields rest ⟨c.Artwork, c.Front, c.Back, c.Count, x⟩
    else coverArtURLFields rest c

def decodeCoverArtURL : Json → Except String CoverArtURL
  | .obj fs => coverArtURLFields fs zeroCoverArtURL
  | .null => .ok zeroCoverArtURL
  | _ => .error "json: cannot unmarshal value into CoverArtURL"

def coverArtURLElems : List Json → Except String (List CoverArtURL)
  | [] => .ok []
  | j :: js => do
    let c ← decodeCoverArtURL j
    let cs ← coverArtURLElems js
    .ok (c :: cs)

def decodeCoverArtURLs : Json → Except String (List CoverArtURL)
  | .arr xs => coverArtURLElems xs
  | .null => .ok []
  | _ => .error "json: cannot unmarshal value into []CoverArtURL"

mutual
/-- `Artist` struct (json keys `id`, `name`, `sort-name`, `type`, `country`,
`area`, `begin_date`, `end_date`, `disambiguation`, `aliases`, `relations`,
`tags`), mutually recursive with `Relation` as in the Go source. Constructor
argument order follows the Go field order. -/
inductive Artist where
  | mk : (ID Name SortName Type' Country Area BeginDate EndDate Disambig : String) →
      (Aliases : List Alias) → (Relations : List Relation) → (Tags : List Tag) → Artist

/-- `Relation` struct (json keys `type`, `url`, `artist`). -/
inductive Relation where
  | mk : (Type' : String) → (URL : String) → (artist : Artist) → Relation
end

/-- Zero value of `Artist`. -/
def zeroArtist : Artist := .mk "" "" "" "" "" "" "" "" "" [] [] []

/-- Zero value of `Relation`. -/
def zeroRelation : Relation := .mk "" "" zeroArtist

/-- Assignment of one JSON object entry to an `Artist`, for every key except
`relations` (handled in the mutual decoder block); unknown keys are skipped. -/
def setArtistField : Artist → String → Json → Except String Artist
  | .mk i n sn ty co ar bd ed di al re ta, k, v =>
    if k == "id" then do
      let x ← getStr v i
      .ok (.mk x n sn ty co ar bd ed di al re ta)
    else if k == "name" then do
      let x ← getStr v n
      .ok (.mk i x sn ty co ar bd ed di al re ta)
    else if k == "sort-name" then do
      let x ← getStr v sn
      .ok (.mk i n x ty co ar bd ed di al re ta)
    else if k == "type" then do
      let x ← getStr v ty
      .ok (.mk i n sn x co ar bd ed di al re ta)
    else if k == "country" then do
      let x ← getStr v co
      .ok (.mk i n sn ty x ar bd ed di al re ta)
    else if k == "area" then do
      let x ← getStr v ar
      .ok (.mk i n sn ty co x bd ed di al re ta)
    else if k == "begin_date" then do
      let x ← getStr v bd
      .ok (.mk i n sn ty co ar x ed di al re ta)
    else if k == "end_date" then do
      let x ← getStr v ed
      .ok (.mk i n sn ty co ar bd x di al re ta)
    else if k == "disambiguation" then do
      let x ← getStr v di
      .ok (.mk i n sn ty co ar bd ed x al re ta)
    else if k == "aliases" then do
      let x ← decodeAliases v
      .ok (.mk i n sn ty co ar bd ed di x re ta)
    else if k == "tags" then do
      let x ← decodeTags v
      .ok (.mk i n sn ty co ar bd ed di al re x)
    else .ok (.mk i n sn ty co ar bd ed di al re ta)

/-- Assignment of one JSON object entry to a `Relation`, for every key except
`artist` (handled in the mutual decoder block); unknown keys are skipped. -/
def setRelationField : Relation → String → Json → Except String Relation
  | .mk ty u a, k, v =>
    if k == "type" then do
      let x ← getStr v ty
      .ok (.mk x u a)
    else if k == "url" then do
      let x ← getStr v u
      .ok (.mk ty x a)
    else .ok (.mk ty u a)

mutual
def decodeArtist : Json → Except String Artist
  | .obj fs => artistFields fs zeroArtist
  | .null => .ok zeroArtist
  | _ => .error "json: cannot unmarshal value into Artist"

def artistFields : List (String × Json) → Artist → Except String Artist
  | [], a => .ok a
  | (k, v) :: rest, a =>
    if k == "relations" then
      match decodeRelations v, a with
      | .error e, _ => .error e
      | .ok rs, .mk i n sn ty co ar bd ed di al _ ta =>
        artistFields rest (.mk i n sn ty co ar bd ed di al rs ta)
    else
      match setArtistField a k v with
      | .error e => .error e
      | .ok a' => artistFields rest a'

def decodeRelations : Json → Except String (List Relation)
  | .arr xs => relationElems xs
  | .null => .ok []
  | _ => .error "json: cannot unmarshal value into []Relation"

def relationElems : List Json → Except String (List Relation)
  | [] => .ok []
  | j :: js =>
    match decodeRelation j with
    | .error e => .error e
    | .ok r =>
      match relationElems js with
      | .error e => .error e
      | .ok rs => .ok (r :: rs)

def decodeRelation : Json → Except String Relation
  | .obj fs => relationFields fs zeroRelation
  | .null => .ok zeroRelation
  | _ => .error "json: cannot unmarshal value into Relation"

def relationFields : List (String × Json) → Relation → Except String Relation
  | [], r => .ok r
  | (k, v) :: rest, r =>
    if k == "artist" then
      match decodeArtist v, r with
      | .error e, _ => .error e
      | .ok a, .mk ty u _ => relationFields rest (.mk ty u a)
    else
      match setRelationField r k v with
      | .error e => .error e
      | .ok r' => relationFields rest r'
end

def artistElems : List Json → Except String (List Artist)
  | [] => .ok []
  | j :: js => do
    let a ← decodeArtist j
    let as ← artistElems js
    .ok (a :: as)

def decodeArtists : Json → Except String (List Artist)
  | .arr xs => artistElems xs
  | .null => .ok []
  | _ => .error "json: cannot unmarshal value into []Artist"

/-- `Release` struct (json keys `id`, `title`, `status`, `text-representation`,
`artist-credit`, `release-group`, `relations`, `tags`, `cover-art-archive`).
The field name `TextRepresetation` keeps the typo of the Go source. -/
structure Release where
  ID : String
  Title : String
  Status : String
  TextRepresetation : TextRepresentation
  ArtistCredit : List ArtistCredit
  ReleaseGroup : ReleaseGroup
  Relations : List Relation
  Tags : List Tag
  CoverArtURL : List CoverArtURL

/-- Zero value of `Release`. -/
def zeroRelease : Release := ⟨"", "", "", ⟨"", ""⟩, [], ⟨"", ""⟩, [], [], []⟩

def releaseFields : List (String × Json) → Release → Except String Release
  | [], r => .ok r
  | (k, v) :: rest, r =>
    if k == "id" then do
      let x ← getStr v r.ID
      releaseFields rest { r with ID := x }
    else if k == "title" then do
      let x ← getStr v r.Title
      releaseFields rest { r with Title := x }
    else if k == "status" then do
      let x ← getStr v r.Status
      releaseFields rest { r with Status := x }
    else if k == "text-representation" then
      match v with
      | .null => releaseFields rest r
      | _ => do
        let x ← decodeTextRepresentation v
        releaseFields rest { r with TextRepresetation := x }
    else if k == "artist-credit" then do
      let x ← decodeArtistCredits v
      releaseFields rest { r with ArtistCredit := x }
    else if k == "release-group" then
      match v with
      | .null => releaseFields rest r
      | _ => do
        let x ← decodeReleaseGroup v
        releaseFields rest { r with ReleaseGroup := x }
    else if k == "relations" then do
      let x ← decodeRelations v
      releaseFields rest { r with Relations := x }
    else if k == "tags" then do
      let x ← decodeTags v
      releaseFields rest { r with Tags := x }
    else if k == "cover-art-archive" then do
      let x ← decodeCoverArtURLs v
      releaseFields rest { r with CoverArtURL := x }
    else releaseFields rest r

def decodeRelease : Json → Except String Release
  | .obj fs => releaseFields fs zeroRelease
  | .null => .ok zeroRelease
  | _ => .error "json: cannot unmarshal value into Release"

def releaseElems : List Json → Except String (List Release)
  | [] => .ok []
  | j :: js => do
    let r ← decodeRelease j
    let rs ← releaseElems js
    .ok (r :: rs)

def decodeReleases : Json → Except String (List Release)
  | .arr xs => releaseElems xs
  | .null => .ok []
  | _ => .error "json: cannot unmarshal value into []Release"

/-- `Recording` struct (json keys `id`, `title`, `length`,
`first-release-date`, `relations`, `tags`, `artist-credit`, `releases`). -/
structure Recording where
  ID : String
  Title : String
  Length : Int
  ReleaseDate : String
  Relations : List Relation
  Tags : List Tag
  ArtistCredit : List ArtistName
  Releases : List Release

/-- Zero value of `Recording`. -/
def zeroRecording : Recording := ⟨"", "", 0, "", [], [], [], []⟩

def recordingFields : List (String × Json) → Recording → Except String Recording
  | [], r => .ok r
  | (k, v) :: rest, r =>
    if k == "id" then do
      let x ← getStr v r.ID
      recordingFields rest { r with ID := x }
    else if k == "title" then do
      let x ← getStr v r.Title
      recordingFields rest { r with Title := x }
    else if k == "length" then do
      let x ← getInt v r.Length
      recordingFields rest { r with Length := x }
    else if k == "first-release-date" then do
      let x ← getStr v r.ReleaseDate
      recordingFields rest { r with ReleaseDate := x }
    else if k == "relations" then do
      let x ← decodeRelations v
      recordingFields rest { r with Relations := x }
    else if k == "tags" then do
      let x ← decodeTags v
      recordingFields rest { r with Tags := x }
    else if k == "artist-credit" then do
      let x ← decodeArtistNames v
      recordingFields rest { r with ArtistCredit := x }
    else if k == "releases" then do
      let x ← decodeReleases v
      recordingFields rest { r with Releases := x }
    else recordingFields rest r

def decodeRecording : Json → Except String Recording
  | .obj fs => recordingFields fs zeroRecording
  | .null => .ok zeroRecording
  | _ => .error "json: cannot unmarshal value into Recording"

def recordingElems : List Json → Except String (List Recording)
  | [] => .ok []
  | j :: js => do
    let r ← decodeRecording j
    let rs ← recordingElems js
    .ok (r :: rs)

def decodeRecordings : Json → Except String (List Recording)
  | .arr xs => recordingElems xs
  | .null => .ok []
  | _ => .error "json: cannot unmarshal value into []Recording"

/-- The anonymous envelope struct of `SearchArtists`: one field
`Artists []Artist` with json key `artists`; unknown keys are skipped. -/
def artistsEnvelopeFields : List (String × Json) → List Artist → Except String (List Artist)
  | [], acc => .ok acc
  | (k, v) :: rest, acc =>
    if k == "artists" then do
      let x ← decodeArtists v
      artistsEnvelopeFields rest x
    else artistsEnvelopeFields rest acc

def decodeArtistsEnvelope : Json → Except String (List Artist)
  | .obj fs => artistsEnvelopeFields fs []
  | .null => .ok []
  | _ => .error "json: cannot unmarshal value into artists envelope"

/-- The anonymous envelope struct of `SearchReleases` (json key `releases`). -/
def releasesEnvelopeFields : List (String × Json) → List Release → Except String (List Release)
  | [], acc => .ok acc
  | (k, v) :: rest, acc =>
    if k == "releases" then do
      let x ← decodeReleases v
      releasesEnvelopeFields rest x
    else releasesEnvelopeFields rest acc

def decodeReleasesEnvelope : Json → Except String (List Release)
  | .obj fs => releasesEnvelopeFields fs []
  | .null => .ok []
  | _ => .error "json: cannot unmarshal value into releases envelope"

/-- The anonymous envelope struct of the recording searches (json key
`recordings`). -/
def recordingsEnvelopeFields :
    List (String × Json) → List Recording → Except String (List Recording)
  | [], acc => .ok acc
  | (k, v) :: rest, acc =>
    if k == "recordings" then do
      let x ← decodeRecordings v
      recordingsEnvelopeFields rest x
    else recordingsEnvelopeFields rest acc

def decodeRecordingsEnvelope : Json → Except String (List Recording)
  | .obj fs => recordingsEnvelopeFields fs []
  | .null => .ok []
  | _ => .error "json: cannot unmarshal value into recordings envelope"

/-- A Go `error` value as it flows through the package: transport errors come
from `http.Get`, read errors from `io.ReadAll`, decode errors from
`json.Unmarshal`, and the one domain error from `errors.New`. Operations
return these values unchanged. -/
inductive GoErr where
  | transport (msg : String)
  | readBody (msg : String)
  | jsonDecode (msg : String)
  | domain (msg : String)
deriving DecidableEq

/-- A response body, abstracted to its JSON parse outcome: `malformed` carries
the parse error message `json.Unmarshal` would report, `wellFormed` the parsed
value. -/
inductive Body where
  | malformed (msg : String)
  | wellFormed (j : Json)

/-- An HTTP response: the status code (which the Go code never reads) and the
outcome of `io.ReadAll` on its body. -/
structure HttpResponse where
  statusCode : Nat
  readBody : Except GoErr Body

/-- The environment: maps the URL passed to `http.Get` to its outcome. -/
def Transport : Type := String → Except GoErr HttpResponse

/-- `json.Unmarshal(body, &result)` for the artists search envelope. -/
def unmarshalArtistsEnvelope : Body → Except GoErr (List Artist)
  | .malformed m => .error (.jsonDecode m)
  | .wellFormed j =>
    match decodeArtistsEnvelope j with
    | .error e => .error (.jsonDecode e)
    | .ok v => .ok v

/-- `json.Unmarshal(body, &result)` for the releases search envelope. -/
def unmarshalReleasesEnvelope : Body → Except GoErr (List Release)
  | .malformed m => .error (.jsonDecode m)
  | .wellFormed j =>
    match decodeReleasesEnvelope j with
    | .error e => .error (.jsonDecode e)
    | .ok v => .ok v

/-- `json.Unmarshal(body, &result)` for the recordings search envelope. -/
def unmarshalRecordingsEnvelope : Body → Except GoErr (List Recording)
  | .malformed m => .error (.jsonDecode m)
  | .wellFormed j =>
    match decodeRecordingsEnvelope j with
    | .error e => .error (.jsonDecode e)
    | .ok v => .ok v

/-- `json.Unmarshal(body, &artist)`. -/
def unmarshalArtist : Body → Except GoErr Artist
  | .malformed m => .error (.jsonDecode m)
  | .wellFormed j =>
    match decodeArtist j with
    | .error e => .error (.jsonDecode e)
    | .ok v => .ok v

/-- `json.Unmarshal(body, &release)`. -/
def unmarshalRelease : Body → Except GoErr Release
  | .malformed m => .error (.jsonDecode m)
  | .wellFormed j =>
    match decodeRelease j with
    | .error e => .error (.jsonDecode e)
    | .ok v => .ok v

/-- `json.Unmarshal(body, &recording)`. -/
def unmarshalRecording : Body → Except GoErr Recording
  | .malformed m => .error (.jsonDecode m)
  | .wellFormed j =>
    match decodeRecording j with
    | .error e => .error (.jsonDecode e)
    | .ok v => .ok v

/-- UTF-8 encoding of a single code point, as a list of byte values; Go
strings are byte sequences, and `url.QueryEscape` works byte by byte. -/
def utf8Bytes (c : Nat) : List Nat :=
  if c < 128 then [c]
  else if c < 2048 then [192 + c / 64, 128 + c % 64]
  else if c < 65536 then [224 + c / 4096, 128 + c / 64 % 64, 128 + c % 64]
  else [240 + c / 262144, 128 + c / 4096 % 64, 128 + c / 64 % 64, 128 + c % 64]

/-- The UTF-8 bytes of a string. -/
def stringBytes (s : String) : List Nat :=
  (s.data.map (fun c => utf8Bytes c.toNat)).flatten

/-- Bytes `url.QueryEscape` leaves unescaped: alphanumerics and `-_.~`. -/
def isUnreservedQueryByte (n : Nat) : Bool :=
  decide ((48 ≤ n ∧ n ≤ 57) ∨ (65 ≤ n ∧ n ≤ 90) ∨ (97 ≤ n ∧ n ≤ 122) ∨
    n = 45 ∨ n = 95 ∨ n = 46 ∨ n = 126)

/-- Upper-case hexadecimal digit, as used by the Go URL escaper. -/
def hexDigitUpper (n : Nat) : Char :=
  if n < 10 then Char.ofNat (48 + n) else Char.ofNat (55 + n)

/-- `url.QueryEscape` treatment of one byte: space becomes `+`, unreserved
bytes stay, every other byte becomes `%XX`. -/
def escapeQueryByte (n : Nat) : String :=
  if n = 32 then "+"
  else if isUnreservedQueryByte n then String.singleton (Char.ofNat n)
  else "%" ++ String.singleton (hexDigitUpper (n / 16)) ++ String.singleton (hexDigitUpper (n % 16))

/-- Model of Go `url.QueryEscape`. -/
def QueryEscape (s : String) : String :=
  String.join ((stringBytes s).map escapeQueryByte)

/-- Lexicographic comparison on code points; on UTF-8 byte sequences this
agrees with the byte-wise order Go uses to sort `url.Values` keys. -/
def charListLt : List Char → List Char → Bool
  | [], [] => false
  | [], _ :: _ => true
  | _ :: _, [] => false
  | c :: cs, d :: ds =>
    if c.toNat < d.toNat then true
    else if d.toNat < c.toNat then false
    else charListLt cs ds

def stringLt (s t : String) : Bool := charListLt s.data t.data

def insertSorted (p : String × String) : List (String × String) → List (String × String)
  | [] => [p]
  | q :: rest => if stringLt p.1 q.1 then p :: q :: rest else q :: insertSorted p rest

/-- Keys of a `url.Values` in sorted order, as `Encode` produces them. -/
def sortByKey (l : List (String × String)) : List (String × String) :=
  l.foldr insertSorted []

def joinAmp : List String → String
  | [] => ""
  | [s] => s
  | s :: rest => s ++ "&" ++ joinAmp rest

/-- Model of Go `url.Values.Encode` for values with one entry per key (the
only shape this package builds): sort by key, escape keys and values, join
`key=value` pairs with `&`. -/
def valuesEncode (kvs : List (String × String)) : String :=
  joinAmp ((sortByKey kvs).map fun p => QueryEscape p.1 ++ "=" ++ QueryEscape p.2)

/-- Model of Go `strconv.Itoa`. -/
def Itoa (n : Int) : String := toString n

/-- `MusicBrainzAPIEndpoint` constant: base URL of the MusicBrainz API. -/
def MusicBrainzAPIEndpoint : String := "https://musicbrainz.org/ws/2/"

/-- URL built by `SearchArtists`. -/
def SearchArtistsURL (name : String) (limit : Int) : String :=
  MusicBrainzAPIEndpoint ++ "artist/?" ++
    valuesEncode [("query", name), ("limit", Itoa limit), ("fmt", "json")]

/-- `SearchArtists(name, limit)`: returns the Go pair `([]Artist, error)`. -/
def SearchArtists (tr : Transport) (name : String) (limit : Int) :
    List Artist × Option GoErr :=
  match tr (SearchArtistsURL name limit) with
  | .error e => ([], some e)
  | .ok response =>
    match response.readBody with
    | .error e => ([], some e)
    | .ok body =>
      match unmarshalArtistsEnvelope body with
      | .error e => ([], some e)
      | .ok result => (result, none)

/-- URL built by `GetArtistByID`. -/
def GetArtistByIDURL (id : String) : String :=
  MusicBrainzAPIEndpoint ++ "artist/" ++ id ++ "?fmt=json"

/-- `GetArtistByID(id)`: returns the Go pair `(*Artist, error)`. -/
def GetArtistByID (tr : Transport) (id : String) : Option Artist × Option GoErr :=
  match tr (GetArtistByIDURL id) with
  | .error e => (none, some e)
  | .ok response =>
    match response.readBody with
    | .error e => (none, some e)
    | .ok body =>
      match unmarshalArtist body with
      | .error e => (none, some e)
      | .ok artist => (some artist, none)

/-- URL built by `SearchReleases`. -/
def SearchReleasesURL (title : String) (limit : Int) : String :=
  MusicBrainzAPIEndpoint ++ "release/?" ++
    valuesEncode [("query", title), ("limit", Itoa limit), ("fmt", "json")]

/-- `SearchReleases(title, limit)`. -/
def SearchReleases (tr : Transport) (title : String) (limit : Int) :
    List Release × Option GoErr :=
  match tr (SearchReleasesURL title limit) with
  | .error e => ([], some e)
  | .ok response =>
    match response.readBody with
    | .error e => ([], some e)
    | .ok body =>
      match unmarshalReleasesEnvelope body with
      | .error e => ([], some e)
      | .ok result => (result, none)

/-- URL built by `GetReleaseByID`. -/
def GetReleaseByIDURL (id : String) : String :=
  MusicBrainzAPIEndpoint ++ "release/" ++ id ++ "?fmt=json"

/-- `GetReleaseByID(id)`. -/
def GetReleaseByID (tr : Transport) (id : String) : Option Release × Option GoErr :=
  match tr (GetReleaseByIDURL id) with
  | .error e => (none, some e)
  | .ok response =>
    match response.readBody with
    | .error e => (none, some e)
    | .ok body =>
      match unmarshalRelease body with
      | .error e => (none, some e)
      | .ok release => (some release, none)

/-- URL built by `SearchRecordings`. -/
def SearchRecordingsURL (title : String) (limit : Int) : String :=
  MusicBrainzAPIEndpoint ++ "recording/?" ++
    valuesEncode [("query", title), ("limit", Itoa limit), ("fmt", "json")]

/-- `SearchRecordings(title, limit)`. -/
def SearchRecordings (tr : Transport) (title : String) (limit : Int) :
    List Recording × Option GoErr :=
  match tr (SearchRecordingsURL title limit) with
  | .error e => ([], some e)
  | .ok response =>
    match response.readBody with
    | .error e => ([], some e)
    | .ok body =>
      match unmarshalRecordingsEnvelope body with
      | .error e => ([], some e)
      | .ok result => (result, none)

/-- URL built by `GetRecordingByID`. -/
def GetRecordingByIDURL (id : String) : String :=
  MusicBrainzAPIEndpoint ++ "recording/" ++ id ++ "?fmt=json"

/-- `GetRecordingByID(id)`. -/
def GetRecordingByID (tr : Transport) (id : String) : Option Recording × Option GoErr :=
  match tr (GetRecordingByIDURL id) with
  | .error e => (none, some e)
  | .ok response =>
    match response.readBody with
    | .error e => (none, some e)
    | .ok body =>
      match unmarshalRecording body with
      | .error e => (none, some e)
      | .ok recording => (some recording, none)

/-- URL built by `SearchRecordingsByTitleAndArtist`: the structured query
`recording:<title> artist:<artist>` is escaped as a whole with
`url.QueryEscape`, the limit is the literal `20`. -/
def SearchRecordingsByTitleAndArtistURL (title artist : String) : String :=
  MusicBrainzAPIEndpoint ++ "recording/?query=" ++
    QueryEscape ("recording:" ++ title ++ " artist:" ++ artist) ++ "&limit=20&fmt=json"

/-- `SearchRecordingsByTitleAndArtist(title, artist)`. -/
def SearchRecordingsByTitleAndArtist (tr : Transport) (title artist : String) :
    List Recording × Option GoErr :=
  match tr (SearchRecordingsByTitleAndArtistURL title artist) with
  | .error e => ([], some e)
  | .ok response =>
    match response.readBody with
    | .error e => ([], some e)
    | .ok body =>
      match unmarshalRecordingsEnvelope body with
      | .error e => ([], some e)
      | .ok result => (result, none)

/-- URL built by `GetRecordingByIDWithTags` (defined before
`GetTagsByTitleAndArtistAndAlbum`, which calls it; in the Go source it
appears after). -/
def GetRecordingByIDWithTagsURL (id : String) : String :=
  MusicBrainzAPIEndpoint ++ "recording/" ++ id ++ "?fmt=json"

/-- `GetRecordingByIDWithTags(id)`: textually the same pipeline as
`GetRecordingByID`. -/
def GetRecordingByIDWithTags (tr : Transport) (id : String) :
    Option Recording × Option GoErr :=
  match tr (GetRecordingByIDWithTagsURL id) with
  | .error e => (none, some e)
  | .ok response =>
    match response.readBody with
    | .error e => (none, some e)
    | .ok body =>
      match unmarshalRecording body with
      | .error e => (none, some e)
      | .ok recording => (some recording, none)

/-- URL built by `GetTagsByTitleAndArtistAndAlbum`: structured query
`recording:<title> artist:<artist> release:<album>`, limit the literal `1`. -/
def GetTagsByTitleAndArtistAndAlbumURL (title artist album : String) : String :=
  MusicBrainzAPIEndpoint ++ "recording/?query=" ++
    QueryEscape ("recording:" ++ title ++ " artist:" ++ artist ++ " release:" ++ album) ++
    "&limit=1&fmt=json"

/-- `GetTagsByTitleAndArtistAndAlbum(title, artist, album)`: returns the Go
triple `([]Tag, string, error)`. The `[r0]` pattern is the `len(...) == 1`
check of the source with `r0 = result.Recordings[0]`; the `(none, none)`
branch of the inner match is unreachable (`getRecordingByIDWithTags_sound`),
since `GetRecordingByIDWithTags` always pairs a `nil` recording with a
non-`nil` error, matching the Go dereference of the returned pointer. -/
def GetTagsByTitleAndArtistAndAlbum (tr : Transport) (title artist album : String) :
    List Tag × String × Option GoErr :=
  match tr (GetTagsByTitleAndArtistAndAlbumURL title artist album) with
  | .error e => ([], "", some e)
  | .ok response =>
    match response.readBody with
    | .error e => ([], "", some e)
    | .ok body =>
      match unmarshalRecordingsEnvelope body with
      | .error e => ([], "", some e)
      | .ok recordings =>
        match recordings with
        | [r0] =>
          match GetRecordingByIDWithTags tr r0.ID with
          | (_, some e) => ([], "", some e)
          | (some recording, none) => (recording.Tags, recording.ReleaseDate, none)
          | (none, none) => ([], "", none)
        | _ => ([], "", some (.domain "MusicBrainz didn\x27t find the song"))

/-- Every return of `GetRecordingByIDWithTags` is either a recording with a
`nil` error or a `nil` recording with a non-`nil` error, so the dereference
in `GetTagsByTitleAndArtistAndAlbum` never sees a `nil` pointer. -/
theorem getRecordingByIDWithTags_sound (tr : Transport) (id : String) :
    (GetRecordingByIDWithTags tr id).2 = none → (GetRecordingByIDWithTags tr id).1.isSome := by
  unfold GetRecordingByIDWithTags
  rcases tr (GetRecordingByIDWithTagsURL id) with e | response
  · simp
  · rcases hb : response.readBody with e | body <;> simp only [hb]
    · simp
    · rcases hu : unmarshalRecording body with e | recording <;> simp only [hu]
      · simp
      · simp

/-- Fixed search response with zero matching recordings, on any URL. -/
def noMatchJson : Json :=
  .obj [("created", .str "2024-01-01T00:00:00Z"), ("count", .num 0),
    ("offset", .num 0), ("recordings", .arr [])]

def trNoMatch : Transport := fun _ => .ok ⟨200, .ok (.wellFormed noMatchJson)⟩

/-- C1: `GetTagsByTitleAndArtistAndAlbum` succeeds only on exactly one match;
whenever the decoded recordings array has length other than one, it returns a
nil tag sequence, an empty release date, and the non-nil domain error
(`errors.New("MusicBrainz didn\x27t find the song")`, the error the spec
describes as "no match found"). -/
theorem getTags_strict_match_failure (tr : Transport) (title artist album : String)
    (resp : HttpResponse) (j : Json) (recs : List Recording)
    (h₁ : tr (GetTagsByTitleAndArtistAndAlbumURL title artist album) = .ok resp)
    (h₂ : resp.readBody = .ok (.wellFormed j))
    (h₃ : decodeRecordingsEnvelope j = .ok recs)
    (h₄ : recs.length ≠ 1) :
    GetTagsByTitleAndArtistAndAlbum tr title artist album
      = ([], "", some (.domain "MusicBrainz didn\x27t find the song")) := by
  simp only [GetTagsByTitleAndArtistAndAlbum, h₁, h₂, unmarshalRecordingsEnvelope, h₃]
  match recs, h₄ with
  | [], _ => rfl
  | [r], h => exact absurd rfl h
  | r₁ :: r₂ :: rest, _ => rfl

/-- C1 witness: a mocked zero-match response yields the domain error. -/
theorem getTags_strict_match_failure_witness :
    GetTagsByTitleAndArtistAndAlbum trNoMatch "Karma Police" "Radiohead" "OK Computer"
      = ([], "", some (.domain "MusicBrainz didn\x27t find the song")) :=
  getTags_strict_match_failure trNoMatch "Karma Police" "Radiohead" "OK Computer"
    ⟨200, .ok (.wellFormed noMatchJson)⟩ noMatchJson [] rfl rfl rfl (by decide)

/-- Search response containing exactly one matching recording (whose search
entry carries a tag that the second lookup does not return, to separate the
two sources). -/
def searchHitJson : Json :=
  .obj [("recordings", .arr [.obj [("id", .str "r1"), ("title", .str "Karma Police"),
    ("tags", .arr [.obj [("name", .str "search-only")]])]])]

/-- Lookup response for recording `r1`, with tags and a first-release-date. -/
def lookupJson : Json :=
  .obj [("id", .str "r1"), ("title", .str "Karma Police"),
    ("first-release-date", .str "1997-05-21"),
    ("tags", .arr [.obj [("name", .str "rock")], .obj [("name", .str "indie")]])]

def trOneMatch : Transport := fun u =>
  if u = GetTagsByTitleAndArtistAndAlbumURL "Karma Police" "Radiohead" "OK Computer" then
    .ok ⟨200, .ok (.wellFormed searchHitJson)⟩
  else if u = GetRecordingByIDWithTagsURL "r1" then
    .ok ⟨200, .ok (.wellFormed lookupJson)⟩
  else .error (.transport "unexpected request")

/-- C2: on a search response decoding to exactly one recording `r`,
`GetTagsByTitleAndArtistAndAlbum` performs the second lookup by `r.ID` and
returns the tags and first-release-date of the recording fetched by that
lookup — not of the search result — with a nil error, provided the lookup
succeeds. -/
theorem getTags_single_match_success (tr : Transport) (title artist album : String)
    (resp : HttpResponse) (j : Json) (r rec : Recording)
    (h₁ : tr (GetTagsByTitleAndArtistAndAlbumURL title artist album) = .ok resp)
    (h₂ : resp.readBody = .ok (.wellFormed j))
    (h₃ : decodeRecordingsEnvelope j = .ok [r])
    (h₄ : GetRecordingByIDWithTags tr r.ID = (some rec, none)) :
    GetTagsByTitleAndArtistAndAlbum tr title artist album
      = (rec.Tags, rec.ReleaseDate, none) := by
  simp only [GetTagsByTitleAndArtistAndAlbum, h₁, h₂, unmarshalRecordingsEnvelope, h₃, h₄]

/-- C2 witness: with one search hit (id `r1`, tagged `search-only`) and a
lookup response carrying tags `rock`, `indie` and date `1997-05-21`, the
helper returns the lookup data, not the search-entry tag. -/
theorem getTags_single_match_success_witness :
    GetTagsByTitleAndArtistAndAlbum trOneMatch "Karma Police" "Radiohead" "OK Computer"
      = ([⟨"rock"⟩, ⟨"indie"⟩], "1997-05-21", none) :=
  getTags_single_match_success trOneMatch "Karma Police" "Radiohead" "OK Computer"
    ⟨200, .ok (.wellFormed searchHitJson)⟩ searchHitJson
    ⟨"r1", "Karma Police", 0, "", [], [⟨"search-only"⟩], [], []⟩
    ⟨"r1", "Karma Police", 0, "1997-05-21", [], [⟨"rock"⟩, ⟨"indie"⟩], [], []⟩
    rfl rfl rfl rfl

/-- C4: `GetRecordingByIDWithTags` is behaviourally identical to
`GetRecordingByID`: same URL for every id, same result for every transport
behaviour. -/
theorem getRecordingByIDWithTags_eq_getRecordingByID :
    (∀ id, GetRecordingByIDWithTagsURL id = GetRecordingByIDURL id) ∧
    (∀ (tr : Transport) (id : String),
      GetRecordingByIDWithTags tr id = GetRecordingByID tr id) :=
  ⟨fun _ => rfl, fun _ _ => rfl⟩

/-- C5: `SearchRecordingsByTitleAndArtist` builds the structured query
`recording:<title> artist:<artist>`, URL-escapes it as a whole, uses the
fixed limit 20, and decodes the `recordings` envelope field into the
returned sequence. -/
theorem searchRecordingsByTitleAndArtist_spec :
    (∀ title artist,
      SearchRecordingsByTitleAndArtistURL title artist =
        MusicBrainzAPIEndpoint ++ "recording/?query=" ++
          QueryEscape ("recording:" ++ title ++ " artist:" ++ artist) ++ "&limit=20&fmt=json") ∧
    (∀ (tr : Transport) (title artist : String) (resp : HttpResponse) (b : Body)
      (recs : List Recording),
      tr (SearchRecordingsByTitleAndArtistURL title artist) = .ok resp →
      resp.readBody = .ok b →
      unmarshalRecordingsEnvelope b = .ok recs →
      SearchRecordingsByTitleAndArtist tr title artist = (recs, none)) := by
  refine ⟨fun _ _ => rfl, fun tr title artist resp b recs h₁ h₂ h₃ => ?_⟩
  simp only [SearchRecordingsByTitleAndArtist, h₁, h₂, h₃]

/-- C5 witness: concrete URL and decode through the pipeline. -/
theorem searchRecordingsByTitleAndArtist_spec_witness :
    SearchRecordingsByTitleAndArtistURL "Karma Police" "Radiohead" =
      MusicBrainzAPIEndpoint ++ "recording/?query=" ++
        QueryEscape ("recording:" ++ "Karma Police" ++ " artist:" ++ "Radiohead") ++
        "&limit=20&fmt=json" ∧
    SearchRecordingsByTitleAndArtist trNoMatch "Karma Police" "Radiohead" = ([], none) :=
  ⟨searchRecordingsByTitleAndArtist_spec.1 "Karma Police" "Radiohead",
   searchRecordingsByTitleAndArtist_spec.2 trNoMatch "Karma Police" "Radiohead"
     ⟨200, .ok (.wellFormed noMatchJson)⟩ (.wellFormed noMatchJson) [] rfl rfl rfl⟩

/-- C7: decoding tolerates the absence of any field, for every entity type:
an entirely empty JSON object decodes to the zero value of each entity, an
object carrying only some keys leaves every other field at its zero value,
and an envelope without its array key decodes to the empty sequence — never
a decode failure. -/
theorem decode_missing_fields_default :
    decodeArtist (.obj []) = .ok zeroArtist ∧
    decodeRelation (.obj []) = .ok zeroRelation ∧
    decodeAlias (.obj []) = .ok ⟨"", ""⟩ ∧
    decodeTag (.obj []) = .ok ⟨""⟩ ∧
    decodeRelease (.obj []) = .ok zeroRelease ∧
    decodeTextRepresentation (.obj []) = .ok ⟨"", ""⟩ ∧
    decodeArtistCredit (.obj []) = .ok ⟨""⟩ ∧
    decodeArtistName (.obj []) = .ok ⟨""⟩ ∧
    decodeReleaseGroup (.obj []) = .ok ⟨"", ""⟩ ∧
    decodeCoverArtURL (.obj []) = .ok zeroCoverArtURL ∧
    decodeGBImage (.obj []) = .ok ⟨"", []⟩ ∧
    decodeRecording (.obj []) = .ok zeroRecording ∧
    (∀ i n, decodeArtist (.obj [("id", .str i), ("name", .str n)]) =
      .ok (.mk i n "" "" "" "" "" "" "" [] [] [])) ∧
    (∀ s, decodeRecording (.obj [("title", .str s)]) =
      .ok { zeroRecording with Title := s }) ∧
    decodeArtistsEnvelope (.obj [("count", .num 1)]) = .ok [] :=
  ⟨rfl, rfl, rfl, rfl, rfl, rfl, rfl, rfl, rfl, rfl, rfl, rfl,
    fun _ _ => rfl, fun _ => rfl, rfl⟩

/-- C9: the four lookup operations interpolate the id into the URL path
verbatim, with no validation and no escaping (a space or slash in the id
lands in the URL unchanged); for the empty id, the constructed URL is the
search endpoint `<base><entity>/?fmt=json` rather than a direct-lookup URL. -/
theorem lookup_url_verbatim_interpolation :
    (∀ id, GetArtistByIDURL id = MusicBrainzAPIEndpoint ++ "artist/" ++ id ++ "?fmt=json") ∧
    (∀ id, GetReleaseByIDURL id = MusicBrainzAPIEndpoint ++ "release/" ++ id ++ "?fmt=json") ∧
    (∀ id, GetRecordingByIDURL id = MusicBrainzAPIEndpoint ++ "recording/" ++ id ++ "?fmt=json") ∧
    (∀ id, GetRecordingByIDWithTagsURL id =
      MusicBrainzAPIEndpoint ++ "recording/" ++ id ++ "?fmt=json") ∧
    GetArtistByIDURL "" = MusicBrainzAPIEndpoint ++ "artist/?fmt=json" ∧
    GetReleaseByIDURL "" = MusicBrainzAPIEndpoint ++ "release/?fmt=json" ∧
    GetRecordingByIDURL "" = MusicBrainzAPIEndpoint ++ "recording/?fmt=json" ∧
    GetRecordingByIDWithTagsURL "" = MusicBrainzAPIEndpoint ++ "recording/?fmt=json" ∧
    GetArtistByIDURL "a b/c" = MusicBrainzAPIEndpoint ++ "artist/a b/c?fmt=json" :=
  ⟨fun _ => rfl, fun _ => rfl, fun _ => rfl, fun _ => rfl, rfl, rfl, rfl, rfl, rfl⟩

/-- Two `http.Get` outcomes that agree on everything except the status code:
same error, or same body-read outcome. -/
def sameBody : Except GoErr HttpResponse → Except GoErr HttpResponse → Prop
  | .error e, .error e' => e = e'
  | .ok r, .ok r' => r.readBody = r'.readBody
  | _, _ => False

theorem sb_searchArtists (tr₁ tr₂ : Transport) (h : ∀ u, sameBody (tr₁ u) (tr₂ u))
    (name : String) (limit : Int) :
    SearchArtists tr₁ name limit = SearchArtists tr₂ name limit := by
  have hu := h (SearchArtistsURL name limit)
  unfold SearchArtists
  revert hu
  rcases tr₁ (SearchArtistsURL name limit) with e₁ | r₁ <;>
    rcases tr₂ (SearchArtistsURL name limit) with e₂ | r₂ <;>
      intro hu <;> simp only [sameBody] at hu
  · simp only [hu]
  · simp only [hu]

theorem sb_getArtistByID (tr₁ tr₂ : Transport) (h : ∀ u, sameBody (tr₁ u) (tr₂ u))
    (id : String) : GetArtistByID tr₁ id = GetArtistByID tr₂ id := by
  have hu := h (GetArtistByIDURL id)
  unfold GetArtistByID
  revert hu
  rcases tr₁ (GetArtistByIDURL id) with e₁ | r₁ <;>
    rcases tr₂ (GetArtistByIDURL id) with e₂ | r₂ <;>
      intro hu <;> simp only [sameBody] at hu
  · simp only [hu]
  · simp only [hu]

theorem sb_searchReleases (tr₁ tr₂ : Transport) (h : ∀ u, sameBody (tr₁ u) (tr₂ u))
    (title : String) (limit : Int) :
    SearchReleases tr₁ title limit = SearchReleases tr₂ title limit := by
  have hu := h (SearchReleasesURL title limit)
  unfold SearchReleases
  revert hu
  rcases tr₁ (SearchReleasesURL title limit) with e₁ | r₁ <;>
    rcases tr₂ (SearchReleasesURL title limit) with e₂ | r₂ <;>
      intro hu <;> simp only [sameBody] at hu
  · simp only [hu]
  · simp only [hu]

theorem sb_getReleaseByID (tr₁ tr₂ : Transport) (h : ∀ u, sameBody (tr₁ u) (tr₂ u))
    (id : String) : GetReleaseByID tr₁ id = GetReleaseByID tr₂ id := by
  have hu := h (GetReleaseByIDURL id)
  unfold GetReleaseByID
  revert hu
  rcases tr₁ (GetReleaseByIDURL id) with e₁ | r₁ <;>
    rcases tr₂ (GetReleaseByIDURL id) with e₂ | r₂ <;>
      intro hu <;> simp only [sameBody] at hu
  · simp only [hu]
  · simp only [hu]

theorem sb_searchRecordings (tr₁ tr₂ : Transport) (h : ∀ u, sameBody (tr₁ u) (tr₂ u))
    (title : String) (limit : Int) :
    SearchRecordings tr₁ title limit = SearchRecordings tr₂ title limit := by
  have hu := h (SearchRecordingsURL title limit)
  unfold SearchRecordings
  revert hu
  rcases tr₁ (SearchRecordingsURL title limit) with e₁ | r₁ <;>
    rcases tr₂ (SearchRecordingsURL title limit) with e₂ | r₂ <;>
      intro hu <;> simp only [sameBody] at hu
  · simp only [hu]
  · simp only [hu]

theorem sb_getRecordingByID (tr₁ tr₂ : Transport) (h : ∀ u, sameBody (tr₁ u) (tr₂ u))
    (id : String) : GetRecordingByID tr₁ id = GetRecordingByID tr₂ id := by
  have hu := h (GetRecordingByIDURL id)
  unfold GetRecordingByID
  revert hu
  rcases tr₁ (GetRecordingByIDURL id) with e₁ | r₁ <;>
    rcases tr₂ (GetRecordingByIDURL id) with e₂ | r₂ <;>
      intro hu <;> simp only [sameBody] at hu
  · simp only [hu]
  · simp only [hu]

theorem sb_searchRecordingsByTitleAndArtist (tr₁ tr₂ : Transport)
    (h : ∀ u, sameBody (tr₁ u) (tr₂ u)) (title artist : String) :
    SearchRecordingsByTitleAndArtist tr₁ title artist =
      SearchRecordingsByTitleAndArtist tr₂ title artist := by
  have hu := h (SearchRecordingsByTitleAndArtistURL title artist)
  unfold SearchRecordingsByTitleAndArtist
  revert hu
  rcases tr₁ (SearchRecordingsByTitleAndArtistURL title artist) with e₁ | r₁ <;>
    rcases tr₂ (SearchRecordingsByTitleAndArtistURL title artist) with e₂ | r₂ <;>
      intro hu <;> simp only [sameBody] at hu
  · simp only [hu]
  · simp only [hu]

theorem sb_getRecordingByIDWithTags (tr₁ tr₂ : Transport)
    (h : ∀ u, sameBody (tr₁ u) (tr₂ u)) (id : String) :
    GetRecordingByIDWithTags tr₁ id = GetRecordingByIDWithTags tr₂ id := by
  have hu := h (GetRecordingByIDWithTagsURL id)
  unfold GetRecordingByIDWithTags
  revert hu
  rcases tr₁ (GetRecordingByIDWithTagsURL id) with e₁ | r₁ <;>
    rcases tr₂ (GetRecordingByIDWithTagsURL id) with e₂ | r₂ <;>
      intro hu <;> simp only [sameBody] at hu
  · simp only [hu]
  · simp only [hu]

theorem sb_getTags (tr₁ tr₂ : Transport) (h : ∀ u, sameBody (tr₁ u) (tr₂ u))
    (title artist album : String) :
    GetTagsByTitleAndArtistAndAlbum tr₁ title artist album =
      GetTagsByTitleAndArtistAndAlbum tr₂ title artist album := by
  have hu := h (GetTagsByTitleAndArtistAndAlbumURL title artist album)
  unfold GetTagsByTitleAndArtistAndAlbum
  revert hu
  rcases tr₁ (GetTagsByTitleAndArtistAndAlbumURL title artist album) with e₁ | r₁ <;>
    rcases tr₂ (GetTagsByTitleAndArtistAndAlbumURL title artist album) with e₂ | r₂ <;>
      intro hu <;> simp only [sameBody] at hu
  · simp only [hu]
  · simp only [hu]
    rcases hb : r₂.readBody with e | body
    · simp only [hb]
    · simp only [hb]
      rcases hm : unmarshalRecordingsEnvelope body with e | recs
      · simp only [hm]
      · simp only [hm]
        rcases recs with _ | ⟨r0, _ | ⟨r1, rest⟩⟩
        · rfl
        · simp only [sb_getRecordingByIDWithTags tr₁ tr₂ h r0.ID]
        · rfl

/-- A JSON error object, as the service returns on a non-200 response. -/
def errorBodyJson : Json :=
  .obj [("error", .str "Not Found"),
    ("help", .str "For usage, please see: https://musicbrainz.org/development/mmd")]

def trErrorBody : Transport := fun _ => .ok ⟨404, .ok (.wellFormed errorBodyJson)⟩

/-- C3: no operation inspects the HTTP status code — two transports whose
responses agree on everything but the status code produce identical results
for every operation — and a non-200 response whose body is a valid JSON
error object decodes into an empty or zero-valued result with a nil error
rather than a distinct not-found error. -/
theorem status_code_never_inspected :
    (∀ (tr₁ tr₂ : Transport), (∀ u, sameBody (tr₁ u) (tr₂ u)) →
      ∀ (name title artist album id : String) (limit : Int),
        SearchArtists tr₁ name limit = SearchArtists tr₂ name limit ∧
        GetArtistByID tr₁ id = GetArtistByID tr₂ id ∧
        SearchReleases tr₁ title limit = SearchReleases tr₂ title limit ∧
        GetReleaseByID tr₁ id = GetReleaseByID tr₂ id ∧
        SearchRecordings tr₁ title limit = SearchRecordings tr₂ title limit ∧
        GetRecordingByID tr₁ id = GetRecordingByID tr₂ id ∧
        SearchRecordingsByTitleAndArtist tr₁ title artist =
          SearchRecordingsByTitleAndArtist tr₂ title artist ∧
        GetRecordingByIDWithTags tr₁ id = GetRecordingByIDWithTags tr₂ id ∧
        GetTagsByTitleAndArtistAndAlbum tr₁ title artist album =
          GetTagsByTitleAndArtistAndAlbum tr₂ title artist album) ∧
    (∀ (name title id : String) (limit : Int),
      SearchArtists trErrorBody name limit = ([], none) ∧
      SearchReleases trErrorBody title limit = ([], none) ∧
      SearchRecordings trErrorBody title limit = ([], none) ∧
      GetArtistByID trErrorBody id = (some zeroArtist, none) ∧
      GetRecordingByID trErrorBody id = (some zeroRecording, none)) :=
  ⟨fun tr₁ tr₂ h name title artist album id limit =>
    ⟨sb_searchArtists tr₁ tr₂ h name limit,
     sb_getArtistByID tr₁ tr₂ h id,
     sb_searchReleases tr₁ tr₂ h title limit,
     sb_getReleaseByID tr₁ tr₂ h id,
     sb_searchRecordings tr₁ tr₂ h title limit,
     sb_getRecordingByID tr₁ tr₂ h id,
     sb_searchRecordingsByTitleAndArtist tr₁ tr₂ h title artist,
     sb_getRecordingByIDWithTags tr₁ tr₂ h id,
     sb_getTags tr₁ tr₂ h title artist album⟩,
   fun _ _ _ _ => ⟨rfl, rfl, rfl, rfl, rfl⟩⟩

def trStatus200 : Transport := fun _ => .ok ⟨200, .ok (.wellFormed noMatchJson)⟩

def trStatus500 : Transport := fun _ => .ok ⟨500, .ok (.wellFormed noMatchJson)⟩

/-- C3 witness: concrete transports differing only in status code (200
versus 500) give identical results, and the 404 JSON error body decodes to
an empty result with a nil error. -/
theorem status_code_never_inspected_witness :
    SearchArtists trStatus200 "Radiohead" 5 = SearchArtists trStatus500 "Radiohead" 5 ∧
    GetTagsByTitleAndArtistAndAlbum trStatus200 "Creep" "Radiohead" "Pablo Honey" =
      GetTagsByTitleAndArtistAndAlbum trStatus500 "Creep" "Radiohead" "Pablo Honey" ∧
    SearchArtists trErrorBody "Radiohead" 5 = ([], none) :=
  ⟨(status_code_never_inspected.1 trStatus200 trStatus500 (fun _ => rfl)
      "Radiohead" "Creep" "Radiohead" "Pablo Honey" "r1" 5).1,
   (status_code_never_inspected.1 trStatus200 trStatus500 (fun _ => rfl)
      "Radiohead" "Creep" "Radiohead" "Pablo Honey" "r1" 5).2.2.2.2.2.2.2.2,
   (status_code_never_inspected.2 "Radiohead" "x" "r1" 5).1⟩

/-- Query-string layout stated by the spec for the simple searches:
`query=<escaped text>&limit=<n>&fmt=json`, in that parameter order; written
out for comparison with the URL the code actually builds through
`url.Values.Encode`. -/
def specSimpleSearchQuery (text : String) (limit : Int) : String :=
  "query=" ++ QueryEscape text ++ "&limit=" ++ Itoa limit ++ "&fmt=json"

/-- C6 counterexample: the URL built by `SearchArtists("Radiohead", 5)` is
not `<base>artist/?query=Radiohead&limit=5&fmt=json` as the claim orders the
parameters: `url.Values.Encode` emits keys in sorted order, so the query
string reads `fmt=json&limit=5&query=Radiohead`. -/
theorem searchArtists_url_param_order_counterexample :
    SearchArtistsURL "Radiohead" 5 ≠
      MusicBrainzAPIEndpoint ++ "artist/?" ++ specSimpleSearchQuery "Radiohead" 5 := by
  decide

/-- C6 amended: `SearchArtists(name, limit)` issues a GET against the base
endpoint with path `artist/` whose query string carries exactly the three
parameters `query=<escaped name>`, `limit=<n>` and `fmt=json`, rendered by
`url.Values.Encode` in sorted key order as
`?fmt=json&limit=<n>&query=<escaped name>`, and decodes the `artists` field
of the response envelope; `SearchReleases` and `SearchRecordings` behave
analogously against `release/` and `recording/`. -/
theorem search_url_encoder_order :
    (∀ (name : String) (limit : Int), SearchArtistsURL name limit =
      MusicBrainzAPIEndpoint ++ "artist/?fmt=json&limit=" ++ QueryEscape (Itoa limit) ++
        "&query=" ++ QueryEscape name) ∧
    (∀ (title : String) (limit : Int), SearchReleasesURL title limit =
      MusicBrainzAPIEndpoint ++ "release/?fmt=json&limit=" ++ QueryEscape (Itoa limit) ++
        "&query=" ++ QueryEscape title) ∧
    (∀ (title : String) (limit : Int), SearchRecordingsURL title limit =
      MusicBrainzAPIEndpoint ++ "recording/?fmt=json&limit=" ++ QueryEscape (Itoa limit) ++
        "&query=" ++ QueryEscape title) ∧
    (∀ (tr : Transport) (name : String) (limit : Int) (resp : HttpResponse) (b : Body)
      (artists : List Artist),
      tr (SearchArtistsURL name limit) = .ok resp → resp.readBody = .ok b →
      unmarshalArtistsEnvelope b = .ok artists →
      SearchArtists tr name limit = (artists, none)) ∧
    (∀ (tr : Transport) (title : String) (limit : Int) (resp : HttpResponse) (b : Body)
      (releases : List Release),
      tr (SearchReleasesURL title limit) = .ok resp → resp.readBody = .ok b →
      unmarshalReleasesEnvelope b = .ok releases →
      SearchReleases tr title limit = (releases, none)) ∧
    (∀ (tr : Transport) (title : String) (limit : Int) (resp : HttpResponse) (b : Body)
      (recs : List Recording),
      tr (SearchRecordingsURL title limit) = .ok resp → resp.readBody = .ok b →
      unmarshalRecordingsEnvelope b = .ok recs →
      SearchRecordings tr title limit = (recs, none)) := by
  refine ⟨fun name limit => ?_, fun title limit => ?_, fun title limit => ?_,
    fun tr name limit resp b v h₁ h₂ h₃ => ?_,
    fun tr title limit resp b v h₁ h₂ h₃ => ?_,
    fun tr title limit resp b v h₁ h₂ h₃ => ?_⟩
  · show MusicBrainzAPIEndpoint ++ "artist/?" ++
        joinAmp ["fmt" ++ "=" ++ "json", "limit" ++ "=" ++ QueryEscape (Itoa limit),
          "query" ++ "=" ++ QueryEscape name] = _
    apply String.ext
    simp only [joinAmp, String.data_append, List.append_assoc]
    rfl
  · show MusicBrainzAPIEndpoint ++ "release/?" ++
        joinAmp ["fmt" ++ "=" ++ "json", "limit" ++ "=" ++ QueryEscape (Itoa limit),
          "query" ++ "=" ++ QueryEscape title] = _
    apply String.ext
    simp only [joinAmp, String.data_append, List.append_assoc]
    rfl
  · show MusicBrainzAPIEndpoint ++ "recording/?" ++
        joinAmp ["fmt" ++ "=" ++ "json", "limit" ++ "=" ++ QueryEscape (Itoa limit),
          "query" ++ "=" ++ QueryEscape title] = _
    apply String.ext
    simp only [joinAmp, String.data_append, List.append_assoc]
    rfl
  · simp only [SearchArtists, h₁, h₂, h₃]
  · simp only [SearchReleases, h₁, h₂, h₃]
  · simp only [SearchRecordings, h₁, h₂, h₃]

/-- C6 witness: the encoder-ordered URL at a concrete input, and the three
search operations decoding their envelope field through the pipeline. -/
theorem search_url_encoder_order_witness :
    SearchArtistsURL "Radiohead" 5 =
      MusicBrainzAPIEndpoint ++ "artist/?fmt=json&limit=" ++ QueryEscape (Itoa 5) ++
        "&query=" ++ QueryEscape "Radiohead" ∧
    SearchArtists trNoMatch "Radiohead" 5 = ([], none) ∧
    SearchReleases trNoMatch "In Rainbows" 3 = ([], none) ∧
    SearchRecordings trNoMatch "Creep" 7 = ([], none) :=
  ⟨search_url_encoder_order.1 "Radiohead" 5,
   search_url_encoder_order.2.2.2.1 trNoMatch "Radiohead" 5
     ⟨200, .ok (.wellFormed noMatchJson)⟩ (.wellFormed noMatchJson) [] rfl rfl rfl,
   search_url_encoder_order.2.2.2.2.1 trNoMatch "In Rainbows" 3
     ⟨200, .ok (.wellFormed noMatchJson)⟩ (.wellFormed noMatchJson) [] rfl rfl rfl,
   search_url_encoder_order.2.2.2.2.2 trNoMatch "Creep" 7
     ⟨200, .ok (.wellFormed noMatchJson)⟩ (.wellFormed noMatchJson) [] rfl rfl rfl⟩

/-- C8: every failure mode of every operation — transport error from
`http.Get`, body-read error from `io.ReadAll`, or `json.Unmarshal` decode
failure — yields the nil/zero result together with that first error value,
propagated unchanged; on success the error is nil and the decoded value is
returned. For `GetTagsByTitleAndArtistAndAlbum` this includes the nested
failure path: when the search succeeds with exactly one hit and the second
lookup by `GetRecordingByIDWithTags` fails, its error is returned unchanged
with the nil/zero result (final conjunct). -/
theorem errors_propagate_unchanged :
    (∀ (tr : Transport) (name : String) (limit : Int) (e : GoErr),
      tr (SearchArtistsURL name limit) = .error e →
      SearchArtists tr name limit = ([], some e)) ∧
    (∀ (tr : Transport) (name : String) (limit : Int) (resp : HttpResponse) (e : GoErr),
      tr (SearchArtistsURL name limit) = .ok resp → resp.readBody = .error e →
      SearchArtists tr name limit = ([], some e)) ∧
    (∀ (tr : Transport) (name : String) (limit : Int) (resp : HttpResponse) (b : Body)
      (e : GoErr),
      tr (SearchArtistsURL name limit) = .ok resp → resp.readBody = .ok b →
      unmarshalArtistsEnvelope b = .error e →
      SearchArtists tr name limit = ([], some e)) ∧
    (∀ (tr : Transport) (name : String) (limit : Int) (resp : HttpResponse) (b : Body)
      (v : List Artist),
      tr (SearchArtistsURL name limit) = .ok resp → resp.readBody = .ok b →
      unmarshalArtistsEnvelope b = .ok v →
      SearchArtists tr name limit = (v, none)) ∧
    (∀ (tr : Transport) (id : String) (e : GoErr),
      tr (GetArtistByIDURL id) = .error e →
      GetArtistByID tr id = (none, some e)) ∧
    (∀ (tr : Transport) (id : String) (resp : HttpResponse) (e : GoErr),
      tr (GetArtistByIDURL id) = .ok resp → resp.readBody = .error e →
      GetArtistByID tr id = (none, some e)) ∧
    (∀ (tr : Transport) (id : String) (resp : HttpResponse) (b : Body) (e : GoErr),
      tr (GetArtistByIDURL id) = .ok resp → resp.readBody = .ok b →
      unmarshalArtist b = .error e →
      GetArtistByID tr id = (none, some e)) ∧
    (∀ (tr : Transport) (id : String) (resp : HttpResponse) (b : Body) (v : Artist),
      tr (GetArtistByIDURL id) = .ok resp → resp.readBody = .ok b →
      unmarshalArtist b = .ok v →
      GetArtistByID tr id = (some v, none)) ∧
    (∀ (tr : Transport) (title : String) (limit : Int) (e : GoErr),
      tr (SearchReleasesURL title limit) = .error e →
      SearchReleases tr title limit = ([], some e)) ∧
    (∀ (tr : Transport) (title : String) (limit : Int) (resp : HttpResponse) (e : GoErr),
      tr (SearchReleasesURL title limit) = .ok resp → resp.readBody = .error e →
      SearchReleases tr title limit = ([], some e)) ∧
    (∀ (tr : Transport) (title : String) (limit : Int) (resp : HttpResponse) (b : Body)
      (e : GoErr),
      tr (SearchReleasesURL title limit) = .ok resp → resp.readBody = .ok b →
      unmarshalReleasesEnvelope b = .error e →
      SearchReleases tr title limit = ([], some e)) ∧
    (∀ (tr : Transport) (title : String) (limit : Int) (resp : HttpResponse) (b : Body)
      (v : List Release),
      tr (SearchReleasesURL title limit) = .ok resp → resp.readBody = .ok b →
      unmarshalReleasesEnvelope b = .ok v →
      SearchReleases tr title limit = (v, none)) ∧
    (∀ (tr : Transport) (id : String) (e : GoErr),
      tr (GetReleaseByIDURL id) = .error e →
      GetReleaseByID tr id = (none, some e)) ∧
    (∀ (tr : Transport) (id : String) (resp : HttpResponse) (e : GoErr),
      tr (GetReleaseByIDURL id) = .ok resp → resp.readBody = .error e →
      GetReleaseByID tr id = (none, some e)) ∧
    (∀ (tr : Transport) (id : String) (resp : HttpResponse) (b : Body) (e : GoErr),
      tr (GetReleaseByIDURL id) = .ok resp → resp.readBody = .ok b →
      unmarshalRelease b = .error e →
      GetReleaseByID tr id = (none, some e)) ∧
    (∀ (tr : Transport) (id : String) (resp : HttpResponse) (b : Body) (v : Release),
      tr (GetReleaseByIDURL id) = .ok resp → resp.readBody = .ok b →
      unmarshalRelease b = .ok v →
      GetReleaseByID tr id = (some v, none)) ∧
    (∀ (tr : Transport) (title : String) (limit : Int) (e : GoErr),
      tr (SearchRecordingsURL title limit) = .error e →
      SearchRecordings tr title limit = ([], some e)) ∧
    (∀ (tr : Transport) (title : String) (limit : Int) (resp : HttpResponse) (e : GoErr),
      tr (SearchRecordingsURL title limit) = .ok resp → resp.readBody = .error e →
      SearchRecordings tr title limit = ([], some e)) ∧
    (∀ (tr : Transport) (title : String) (limit : Int) (resp : HttpResponse) (b : Body)
      (e : GoErr),
      tr (SearchRecordingsURL title limit) = .ok resp → resp.readBody = .ok b →
      unmarshalRecordingsEnvelope b = .error e →
      SearchRecordings tr title limit = ([], some e)) ∧
    (∀ (tr : Transport) (title : String) (limit : Int) (resp : HttpResponse) (b : Body)
      (v : List Recording),
      tr (SearchRecordingsURL title limit) = .ok resp → resp.readBody = .ok b →
      unmarshalRecordingsEnvelope b = .ok v →
      SearchRecordings tr title limit = (v, none)) ∧
    (∀ (tr : Transport) (id : String) (e : GoErr),
      tr (GetRecordingByIDURL id) = .error e →
      GetRecordingByID tr id = (none, some e)) ∧
    (∀ (tr : Transport) (id : String) (resp : HttpResponse) (e : GoErr),
      tr (GetRecordingByIDURL id) = .ok resp → resp.readBody = .error e →
      GetRecordingByID tr id = (none, some e)) ∧
    (∀ (tr : Transport) (id : String) (resp : HttpResponse) (b : Body) (e : GoErr),
      tr (GetRecordingByIDURL id) = .ok resp → resp.readBody = .ok b →
      unmarshalRecording b = .error e →
      GetRecordingByID tr id = (none, some e)) ∧
    (∀ (tr : Transport) (id : String) (resp : HttpResponse) (b : Body) (v : Recording),
      tr (GetRecordingByIDURL id) = .ok resp → resp.readBody = .ok b →
      unmarshalRecording b = .ok v →
      GetRecordingByID tr id = (some v, none)) ∧
    (∀ (tr : Transport) (title artist : String) (e : GoErr),
      tr (SearchRecordingsByTitleAndArtistURL title artist) = .error e →
      SearchRecordingsByTitleAndArtist tr title artist = ([], some e)) ∧
    (∀ (tr : Transport) (title artist : String) (resp : HttpResponse) (e : GoErr),
      tr (SearchRecordingsByTitleAndArtistURL title artist) = .ok resp →
      resp.readBody = .error e →
      SearchRecordingsByTitleAndArtist tr title artist = ([], some e)) ∧
    (∀ (tr : Transport) (title artist : String) (resp : HttpResponse) (b : Body)
      (e : GoErr),
      tr (SearchRecordingsByTitleAndArtistURL title artist) = .ok resp →
      resp.readBody = .ok b → unmarshalRecordingsEnvelope b = .error e →
      SearchRecordingsByTitleAndArtist tr title artist = ([], some e)) ∧
    (∀ (tr : Transport) (title artist : String) (resp : HttpResponse) (b : Body)
      (v : List Recording),
      tr (SearchRecordingsByTitleAndArtistURL title artist) = .ok resp →
      resp.readBody = .ok b → unmarshalRecordingsEnvelope b = .ok v →
      SearchRecordingsByTitleAndArtist tr title artist = (v, none)) ∧
    (∀ (tr : Transport) (id : String) (e : GoErr),
      tr (GetRecordingByIDWithTagsURL id) = .error e →
      GetRecordingByIDWithTags tr id = (none, some e)) ∧
    (∀ (tr : Transport) (id : String) (resp : HttpResponse) (e : GoErr),
      tr (GetRecordingByIDWithTagsURL id) = .ok resp → resp.readBody = .error e →
      GetRecordingByIDWithTags tr id = (none, some e)) ∧
    (∀ (tr : Transport) (id : String) (resp : HttpResponse) (b : Body) (e : GoErr),
      tr (GetRecordingByIDWithTagsURL id) = .ok resp → resp.readBody = .ok b →
      unmarshalRecording b = .error e →
      GetRecordingByIDWithTags tr id = (none, some e)) ∧
    (∀ (tr : Transport) (id : String) (resp : HttpResponse) (b : Body) (v : Recording),
      tr (GetRecordingByIDWithTagsURL id) = .ok resp → resp.readBody = .ok b →
      unmarshalRecording b = .ok v →
      GetRecordingByIDWithTags tr id = (some v, none)) ∧
    (∀ (tr : Transport) (title artist album : String) (e : GoErr),
      tr (GetTagsByTitleAndArtistAndAlbumURL title artist album) = .error e →
      GetTagsByTitleAndArtistAndAlbum tr title artist album = ([], "", some e)) ∧
    (∀ (tr : Transport) (title artist album : String) (resp : HttpResponse) (e : GoErr),
      tr (GetTagsByTitleAndArtistAndAlbumURL title artist album) = .ok resp →
      resp.readBody = .error e →
      GetTagsByTitleAndArtistAndAlbum tr title artist album = ([], "", some e)) ∧
    (∀ (tr : Transport) (title artist album : String) (resp : HttpResponse) (b : Body)
      (e : GoErr),
      tr (GetTagsByTitleAndArtistAndAlbumURL title artist album) = .ok resp →
      resp.readBody = .ok b → unmarshalRecordingsEnvelope b = .error e →
      GetTagsByTitleAndArtistAndAlbum tr title artist album = ([], "", some e)) ∧
    (∀ (tr : Transport) (title artist album : String) (resp : HttpResponse) (b : Body)
      (r : Recording) (e : GoErr),
      tr (GetTagsByTitleAndArtistAndAlbumURL title artist album) = .ok resp →
      resp.readBody = .ok b → unmarshalRecordingsEnvelope b = .ok [r] →
      (GetRecordingByIDWithTags tr r.ID).2 = some e →
      GetTagsByTitleAndArtistAndAlbum tr title artist album = ([], "", some e)) :=
  ⟨fun tr n l e h => by simp only [SearchArtists, h],
   fun tr n l r e h₁ h₂ => by simp only [SearchArtists, h₁, h₂],
   fun tr n l r b e h₁ h₂ h₃ => by simp only [SearchArtists, h₁, h₂, h₃],
   fun tr n l r b v h₁ h₂ h₃ => by simp only [SearchArtists, h₁, h₂, h₃],
   fun tr i e h => by simp only [GetArtistByID, h],
   fun tr i r e h₁ h₂ => by simp only [GetArtistByID, h₁, h₂],
   fun tr i r b e h₁ h₂ h₃ => by simp only [GetArtistByID, h₁, h₂, h₃],
   fun tr i r b v h₁ h₂ h₃ => by simp only [GetArtistByID, h₁, h₂, h₃],
   fun tr t l e h => by simp only [SearchReleases, h],
   fun tr t l r e h₁ h₂ => by simp only [SearchReleases, h₁, h₂],
   fun tr t l r b e h₁ h₂ h₃ => by simp only [SearchReleases, h₁, h₂, h₃],
   fun tr t l r b v h₁ h₂ h₃ => by simp only [SearchReleases, h₁, h₂, h₃],
   fun tr i e h => by simp only [GetReleaseByID, h],
   fun tr i r e h₁ h₂ => by simp only [GetReleaseByID, h₁, h₂],
   fun tr i r b e h₁ h₂ h₃ => by simp only [GetReleaseByID, h₁, h₂, h₃],
   fun tr i r b v h₁ h₂ h₃ => by simp only [GetReleaseByID, h₁, h₂, h₃],
   fun tr t l e h => by simp only [SearchRecordings, h],
   fun tr t l r e h₁ h₂ => by simp only [SearchRecordings, h₁, h₂],
   fun tr t l r b e h₁ h₂ h₃ => by simp only [SearchRecordings, h₁, h₂, h₃],
   fun tr t l r b v h₁ h₂ h₃ => by simp only [SearchRecordings, h₁, h₂, h₃],
   fun tr i e h => by simp only [GetRecordingByID, h],
   fun tr i r e h₁ h₂ => by simp only [GetRecordingByID, h₁, h₂],
   fun tr i r b e h₁ h₂ h₃ => by simp only [GetRecordingByID, h₁, h₂, h₃],
   fun tr i r b v h₁ h₂ h₃ => by simp only [GetRecordingByID, h₁, h₂, h₃],
   fun tr t a e h => by simp only [SearchRecordingsByTitleAndArtist, h],
   fun tr t a r e h₁ h₂ => by simp only [SearchRecordingsByTitleAndArtist, h₁, h₂],
   fun tr t a r b e h₁ h₂ h₃ => by simp only [SearchRecordingsByTitleAndArtist, h₁, h₂, h₃],
   fun tr t a r b v h₁ h₂ h₃ => by simp only [SearchRecordingsByTitleAndArtist, h₁, h₂, h₃],
   fun tr i e h => by simp only [GetRecordingByIDWithTags, h],
   fun tr i r e h₁ h₂ => by simp only [GetRecordingByIDWithTags, h₁, h₂],
   fun tr i r b e h₁ h₂ h₃ => by simp only [GetRecordingByIDWithTags, h₁, h₂, h₃],
   fun tr i r b v h₁ h₂ h₃ => by simp only [GetRecordingByIDWithTags, h₁, h₂, h₃],
   fun tr t a al e h => by simp only [GetTagsByTitleAndArtistAndAlbum, h],
   fun tr t a al r e h₁ h₂ => by simp only [GetTagsByTitleAndArtistAndAlbum, h₁, h₂],
   fun tr t a al r b e h₁ h₂ h₃ => by
     simp only [GetTagsByTitleAndArtistAndAlbum, h₁, h₂, h₃],
   fun tr t a al r b rc e h₁ h₂ h₃ h₄ => by
     simp only [GetTagsByTitleAndArtistAndAlbum, h₁, h₂, h₃]
     rcases hg : GetRecordingByIDWithTags tr rc.ID with ⟨ro, eo⟩
     rw [hg] at h₄
     have he : eo = some e := h₄
     subst he
     rcases ro with _ | rec <;> rfl⟩

def trFail : Transport := fun _ => .error (.transport "connection refused")

def trReadErr : Transport := fun _ => .ok ⟨200, .error (.readBody "unexpected EOF")⟩

def trMalformed : Transport :=
  fun _ => .ok ⟨200, .ok (.malformed "unexpected end of JSON input")⟩

/-- Search succeeds with exactly one hit (id `r1`), but the second lookup by
id fails at the transport layer. -/
def trLookupFail : Transport := fun u =>
  if u = GetTagsByTitleAndArtistAndAlbumURL "Creep" "Radiohead" "Pablo Honey" then
    .ok ⟨200, .ok (.wellFormed (.obj [("recordings", .arr [.obj [("id", .str "r1")]])]))⟩
  else .error (.transport "connection reset")

/-- C8 witness: concrete transports exercising each failure mode — including
the nested second-lookup failure of the strict-match helper — with the error
value returned verbatim, plus a success case with a nil error. -/
theorem errors_propagate_unchanged_witness :
    SearchArtists trFail "Radiohead" 5 = ([], some (.transport "connection refused")) ∧
    SearchArtists trReadErr "Radiohead" 5 = ([], some (.readBody "unexpected EOF")) ∧
    SearchArtists trMalformed "Radiohead" 5 =
      ([], some (.jsonDecode "unexpected end of JSON input")) ∧
    SearchArtists trNoMatch "Radiohead" 5 = ([], none) ∧
    GetArtistByID trFail "a74b1b7f-71a5-4011-9441-d0b5e4122711" =
      (none, some (.transport "connection refused")) ∧
    GetTagsByTitleAndArtistAndAlbum trFail "Creep" "Radiohead" "Pablo Honey" =
      ([], "", some (.transport "connection refused")) ∧
    GetTagsByTitleAndArtistAndAlbum trLookupFail "Creep" "Radiohead" "Pablo Honey" =
      ([], "", some (.transport "connection reset")) := by
  obtain ⟨sa1, sa2, sa3, sa4, ga1, _, _, _, _, _, _, _, _, _, _, _, _, _, _, _, _, _, _, _,
    _, _, _, _, _, _, _, _, gt1, _, _, gt4⟩ := errors_propagate_unchanged
  exact ⟨sa1 trFail "Radiohead" 5 (.transport "connection refused") rfl,
    sa2 trReadErr "Radiohead" 5 ⟨200, .error (.readBody "unexpected EOF")⟩
      (.readBody "unexpected EOF") rfl rfl,
    sa3 trMalformed "Radiohead" 5 ⟨200, .ok (.malformed "unexpected end of JSON input")⟩
      (.malformed "unexpected end of JSON input") (.jsonDecode "unexpected end of JSON input")
      rfl rfl rfl,
    sa4 trNoMatch "Radiohead" 5 ⟨200, .ok (.wellFormed noMatchJson)⟩
      (.wellFormed noMatchJson) [] rfl rfl rfl,
    ga1 trFail "a74b1b7f-71a5-4011-9441-d0b5e4122711" (.transport "connection refused") rfl,
    gt1 trFail "Creep" "Radiohead" "Pablo Honey" (.transport "connection refused") rfl,
    gt4 trLookupFail "Creep" "Radiohead" "Pablo Honey"
      ⟨200, .ok (.wellFormed (.obj [("recordings", .arr [.obj [("id", .str "r1")]])]))⟩
      (.wellFormed (.obj [("recordings", .arr [.obj [("id", .str "r1")]])]))
      ⟨"r1", "", 0, "", [], [], [], []⟩ (.transport "connection reset")
      rfl rfl rfl rfl⟩

/-- Search response with one hit whose second lookup returns an entirely
empty JSON object, so the looked-up recording is the zero value: no tags, no
first-release-date. -/
def trZeroRecording : Transport := fun u =>
  if u = GetTagsByTitleAndArtistAndAlbumURL "Creep" "Radiohead" "Pablo Honey" then
    .ok ⟨200, .ok (.wellFormed (.obj [("recordings", .arr [.obj [("id", .str "r1")]])]))⟩
  else if u = GetRecordingByIDWithTagsURL "r1" then
    .ok ⟨200, .ok (.wellFormed (.obj []))⟩
  else .error (.transport "unexpected request")

/-- C10 counterexample: on a successful call whose looked-up recording has no
tags and no first-release-date, the result is `([], "", nil)`, so the error
is nil AND the returned tag sequence is nil with an empty date — both sides
of the claimed dichotomy hold at once, refuting "exactly one of the two
holds". -/
theorem getTags_exactly_one_counterexample :
    ¬ ((((GetTagsByTitleAndArtistAndAlbum trZeroRecording "Creep" "Radiohead"
            "Pablo Honey").2.2 = none) ∨
        ((GetTagsByTitleAndArtistAndAlbum trZeroRecording "Creep" "Radiohead"
            "Pablo Honey").1 = [] ∧
         (GetTagsByTitleAndArtistAndAlbum trZeroRecording "Creep" "Radiohead"
            "Pablo Honey").2.1 = "")) ∧
       ¬ (((GetTagsByTitleAndArtistAndAlbum trZeroRecording "Creep" "Radiohead"
            "Pablo Honey").2.2 = none) ∧
          ((GetTagsByTitleAndArtistAndAlbum trZeroRecording "Creep" "Radiohead"
            "Pablo Honey").1 = [] ∧
           (GetTagsByTitleAndArtistAndAlbum trZeroRecording "Creep" "Radiohead"
            "Pablo Honey").2.1 = ""))) := by
  have h : GetTagsByTitleAndArtistAndAlbum trZeroRecording "Creep" "Radiohead" "Pablo Honey"
      = ([], "", none) := rfl
  simp [h]

/-- C10 amended: `GetTagsByTitleAndArtistAndAlbum` never returns a usable
result together with an error — for every input and response behaviour, at
least one of the two holds (inclusive): the error is nil, or the returned
tag sequence is nil and the release-date string empty. Equivalently, any
non-nil error comes with nil tags and an empty date; both sides hold at once
exactly when a successful lookup returns a recording with no tags and no
date. -/
theorem getTags_no_usable_result_with_error (tr : Transport) (title artist album : String) :
    (GetTagsByTitleAndArtistAndAlbum tr title artist album).2.2 = none ∨
    ((GetTagsByTitleAndArtistAndAlbum tr title artist album).1 = [] ∧
     (GetTagsByTitleAndArtistAndAlbum tr title artist album).2.1 = "") := by
  unfold GetTagsByTitleAndArtistAndAlbum
  rcases tr (GetTagsByTitleAndArtistAndAlbumURL title artist album) with e | resp
  · simp
  · rcases hb : resp.readBody with e | body <;> simp only [hb]
    · simp
    · rcases hm : unmarshalRecordingsEnvelope body with e | recs <;> simp only [hm]
      · simp
      · rcases recs with _ | ⟨r0, _ | ⟨r1, rest⟩⟩
        · simp
        · rcases hg : GetRecordingByIDWithTags tr r0.ID with ⟨ro, eo⟩
          simp only [hg]
          rcases ro with _ | rec <;> rcases eo with _ | e <;> simp
        · simp

end MusicBrainz
